import Mathlib

/-!
Shallow embedding of `src/dancingpeasant/DancingPeasant.py` (class `BaseFile`).

The Python class wraps a sqlite3 connection.  We embed the pieces the
claims need:

* a database file's contents (`DB`) is a list of tables in creation
  (sqlite_master scan) order; each table carries its name, its column
  spec string, and its rows.  The only row writer in the source is
  `_addHistory`, which inserts `(int(time.time()), type, event)`, so a
  row is a `(time, type, event)` triple.
* the storage engine is Python 2's stdlib `sqlite3` module: a
  connection holds a `pending` (uncommitted) view of the file's
  contents; `commit` publishes `pending` to the filesystem, `rollback`
  restores `pending` from the committed contents.  Crucially, that
  module implicitly commits any pending transaction before a non-DML
  statement and executes DDL (`DROP`/`CREATE`) in autocommit mode, so
  each DDL is durable as soon as it runs and a later `rollback()`
  cannot undo it (see `addTable`).  `CREATE TABLE` failure (malformed
  schema text, §7) is injected through a `validSpec : String → Bool`
  parameter standing for the engine's acceptance of the column-spec
  string.
* `promptOnOverwrite` (the Confirmation Gate) reads the terminal; it is
  modelled by a caller-supplied `confirm : String → String → Bool`
  answering (entity, entityType), and every invocation is recorded in
  the world's `prompts` trace so "the gate was (not) consulted" is
  observable.
* a Python exception is an error value; an operation returns the
  (possibly partially mutated, as in Python) object state, the world,
  and `Option DPError` (`none` = normal return).
-/

/-- A row of a table.  The only `INSERT` in the source is
`_addHistory`: `INSERT INTO history (time, type, event) VALUES
('%d','%s','%s') % (int(time.time()), type, event)`, so a row is a
(time, type, event) triple.  `type` is a Lean keyword, hence `ty`. -/
structure Row where
  time : Nat
  ty : String
  event : String
deriving DecidableEq, Repr

/-- A table of the sqlite file: its name, the column-spec string it was
created with (`CREATE TABLE name(columns)`), and its rows in rowid
(insertion) order. -/
structure Table where
  name : String
  columns : String
  rows : List Row
deriving DecidableEq, Repr

/-- The contents of one database file: its tables in creation order. -/
abbrev DB := List Table

/-- The filesystem: an association list from file name to the committed
contents of that sqlite file.  `os.path.isfile` is membership. -/
abbrev FS := List (String × DB)

def fsLookup (fs : FS) (fileName : String) : Option DB :=
  (fs.find? (fun p => p.1 = fileName)).map Prod.snd

def fsSet (fs : FS) (fileName : String) (db : DB) : FS :=
  match fs with
  | [] => [(fileName, db)]
  | p :: rest =>
    if p.1 = fileName then (fileName, db) :: rest else p :: fsSet rest fileName db

/-- Embeds `os.remove`. -/
def fsRemove (fs : FS) (fileName : String) : FS :=
  fs.filter (fun p => p.1 ≠ fileName)

/-- A live sqlite connection (`lite.connect(fileName)`): the file it is
bound to and the uncommitted view of that file's contents.  `commit`
publishes `pending` to the filesystem; `rollback` re-reads the
committed contents. -/
structure Connection where
  fileName : String
  pending : DB
deriving DecidableEq, Repr

/-- The world outside the `BaseFile` object: the filesystem, plus a
trace of every Confirmation Gate (`promptOnOverwrite`) invocation as
(entity, entityType) pairs, so that claims about the gate being
consulted are observable. -/
structure World where
  fs : FS
  prompts : List (String × String)
deriving DecidableEq, Repr

/-- The Python exceptions the source can raise, as error values.

`fileAlreadyOpen`, `fileNotFound`, `fileNotOpen`, `fileError` embed
`DP_FileAlreadyOpenException`, `DP_FileNotFoundException`,
`DP_FileNotOpenException`, `DP_FileError` (raised at the sites visible
in `src`; the class definitions live in the repository's
`DPExceptions.py`, which is not under `src`).

`indexError` embeds Python's built-in `IndexError`: `getVersion` does
`rows[0][2]` and its `except` clause catches only `lite.Error`, so an
empty result list escapes as an uncaught `IndexError`.

`attributeError` embeds Python's built-in `AttributeError`:
`getVersion` calls `self.connection.cursor()` without a `None` check.

`noVersionRecorded` is modelled from the spec: §7 lists a
`NoVersionRecorded` error kind; no raising site for it exists anywhere
in `src`, the constructor exists only so the spec's claim about it can
be stated. -/
inductive DPError where
  | fileAlreadyOpen
  | fileNotFound
  | fileNotOpen
  | fileError
  | indexError
  | attributeError
  | noVersionRecorded
deriving DecidableEq, Repr

/-- The `BaseFile` object's mutable state.

* `metaFileName` — the `"fileName"` key of `self.meta` (`none` = key
  absent; the `"verbosity"` key only gates `print` calls and is not
  modelled).
* `version` — `self.version`; `none` embeds the integer sentinel `-1`
  set in `__init__` and `closeFile`, `some s` the string that
  `getVersion()` returned.
* `connection` — `self.connection` (`none` = `None`). -/
structure BaseFile where
  metaFileName : Option String
  version : Option String
  connection : Option Connection
deriving DecidableEq, Repr

/-- Embeds `BaseFile.__init__`: version unset (-1), no connection. -/
def BaseFile.init : BaseFile :=
  { metaFileName := none, version := none, connection := none }

/-- Result of one method call: the object state when the call returned
or the exception escaped (Python keeps mutations made before a raise),
the world, and the escaped exception if any (`none` = normal return). -/
structure Res where
  st : BaseFile
  w : World
  err : Option DPError
deriving DecidableEq, Repr

/-- Embeds `promptOnOverwrite(entity, entityType)`: asks the Confirmation Gate
(terminal loop in the source, here the injected `confirm` function) and
records the invocation in the trace. -/
def promptOnOverwrite (confirm : String → String → Bool) (w : World)
    (entity entityType : String) : Bool × World :=
  (confirm entity entityType,
   { w with prompts := w.prompts ++ [(entity, entityType)] })

/-- Stable insertion (descending by `time`) used to embed
`ORDER BY time DESC`: `r` is placed before the first element whose time
is `≤ r.time`, so among equal times the element earlier in the scan
stays first. -/
def insertDesc (r : Row) : List Row → List Row
  | [] => [r]
  | x :: xs => if x.time ≤ r.time then r :: x :: xs else x :: insertDesc r xs

/-- Embeds `ORDER BY time DESC` over rows in rowid (insertion) order, modelled
as a stable descending sort: rows with equal `time` keep their
insertion order. -/
def sortByTimeDesc (rows : List Row) : List Row :=
  rows.foldr insertDesc []

def findTable (db : DB) (tableName : String) : Option Table :=
  db.find? (fun t => t.name = tableName)

/-- Embeds `SELECT name FROM sqlite_master WHERE type='table' AND name=...`
returned a non-empty row list. -/
def tableExists (db : DB) (tableName : String) : Bool :=
  (findTable db tableName).isSome

/-- Embeds `INSERT INTO history (time, type, event) VALUES (...)` applied to a
file's contents: appends the row to the `history` table. -/
def appendRowDB (db : DB) (r : Row) : DB :=
  db.map (fun t => if t.name = "history" then { t with rows := t.rows ++ [r] } else t)

/-- Embeds `BaseFile.getVersion`: `SELECT * FROM history WHERE type='version'
ORDER BY time DESC`, then `rows[0][2]`.

* `self.connection` is `None` → `None.cursor()` raises
  `AttributeError` (uncaught; the method has no open check).
* no `history` table → `lite.Error` → caught and re-raised as
  `DP_FileError`.
* empty row list → `rows[0]` raises `IndexError`, which the
  `except lite.Error` clause does not catch.
* otherwise returns column 2 (`event`) of the first ordered row.

The trailing `return -1` in the source is unreachable. -/
def getVersion (st : BaseFile) : Except DPError String :=
  match st.connection with
  | none => .error .attributeError
  | some conn =>
    match findTable conn.pending "history" with
    | none => .error .fileError
    | some t =>
      match sortByTimeDesc (t.rows.filter (fun r => r.ty == "version")) with
      | [] => .error .indexError
      | r :: _ => .ok r.event

/-- Embeds `BaseFile.openFile(fileName)`: raises `DP_FileAlreadyOpenException`
if a connection is held, `DP_FileNotFoundException` if the file does
not exist; otherwise connects, sets `meta["fileName"]`, and caches
`self.version = self.getVersion()` (a `getVersion` exception escapes
with the connection already set, as in Python). -/
def openFile (st : BaseFile) (w : World) (fileName : String) : Res :=
  if st.connection.isSome then ⟨st, w, some .fileAlreadyOpen⟩
  else
    match fsLookup w.fs fileName with
    | none => ⟨st, w, some .fileNotFound⟩
    | some db =>
      let st1 : BaseFile :=
        { st with connection := some ⟨fileName, db⟩, metaFileName := some fileName }
      match getVersion st1 with
      | .error e => ⟨st1, w, some e⟩
      | .ok v => ⟨{ st1 with version := some v }, w, none⟩

/-- Embeds `BaseFile.closeFile()`: raises `DP_FileNotOpenException` if no
connection is held; otherwise closes the connection (uncommitted
changes are discarded), deletes `meta["fileName"]`, clears the
connection and resets `version` to the sentinel. -/
def closeFile (st : BaseFile) (w : World) : Res :=
  match st.connection with
  | none => ⟨st, w, some .fileNotOpen⟩
  | some _ =>
    ⟨{ metaFileName := none, version := none, connection := none }, w, none⟩

/-- Embeds `BaseFile.addTable(tableName, columns, force)`:

* no connection → `DP_FileNotOpenException`;
* unless `force`: if the table exists, consult the Confirmation Gate;
  a declined overwrite is a logged no-op return;
* then `DROP TABLE IF EXISTS` + `CREATE TABLE` + `commit`; on an engine
  failure at `CREATE` (modelled: the engine rejects the column spec) the
  source calls `rollback()` and raises `DP_FileError`.

The source runs on Python 2's stdlib `sqlite3` module, which implicitly
commits any pending transaction before a non-DML statement and executes
DDL in autocommit mode.  So the `DROP` is durable the moment it runs:
when the `CREATE` then fails there is no open transaction, the
`rollback()` in the `except` arm restores nothing, and the dropped
table stays dropped — in `pending` and on disk.  (On the success path
the end state is the same as committing drop and create together, since
each DDL autocommits and the final `commit()` is a no-op.) -/
def addTable (confirm : String → String → Bool) (validSpec : String → Bool)
    (st : BaseFile) (w : World) (tableName columns : String) (force : Bool) : Res :=
  match st.connection with
  | none => ⟨st, w, some .fileNotOpen⟩
  | some conn =>
    let doCreate : World → Res := fun w =>
      let dropped := conn.pending.filter (fun t => t.name ≠ tableName)
      if validSpec columns then
        let pending := dropped ++ [⟨tableName, columns, []⟩]
        ⟨{ st with connection := some { conn with pending := pending } },
         { w with fs := fsSet w.fs conn.fileName pending }, none⟩
      else
        ⟨{ st with connection := some { conn with pending := dropped } },
         { w with fs := fsSet w.fs conn.fileName dropped }, some .fileError⟩
    if force then doCreate w
    else
      if tableExists conn.pending tableName then
        let pr := promptOnOverwrite confirm w tableName "table"
        if pr.1 then doCreate pr.2 else ⟨st, pr.2, none⟩
      else doCreate w

/-- Embeds `BaseFile._addHistory(type, event)`: no connection →
`DP_FileNotOpenException`; missing `history` table → `lite.Error` →
`DP_FileError`; otherwise inserts `(now, ty, event)` and commits.
`now` stands for `int(time.time())`. -/
def addHistory (st : BaseFile) (w : World) (ty event : String) (now : Nat) : Res :=
  match st.connection with
  | none => ⟨st, w, some .fileNotOpen⟩
  | some conn =>
    match findTable conn.pending "history" with
    | none => ⟨st, w, some .fileError⟩
    | some _ =>
      let pending := appendRowDB conn.pending ⟨now, ty, event⟩
      ⟨{ st with connection := some { conn with pending := pending } },
       { w with fs := fsSet w.fs conn.fileName pending }, none⟩

/-- Embeds `BaseFile.logMessage`. -/
def logMessage (st : BaseFile) (w : World) (message : String) (now : Nat) : Res :=
  addHistory st w "message" message now

/-- Embeds `BaseFile.logVersion`. -/
def logVersion (st : BaseFile) (w : World) (version : String) (now : Nat) : Res :=
  addHistory st w "version" version now

/-- The column spec of the reserved history table, as written in
`createNewFile`. -/
def historySpec : String := "time INT, type TEXT, event TEXT"

/-- Embeds `BaseFile.createNewFile(fileName, version, force)`:

* unless `force`: a held connection raises
  `DP_FileAlreadyOpenException`; an existing file consults the
  Confirmation Gate — declining returns (cancelled, no error),
  accepting `os.remove`s the file;
* connects (creating the file if absent), sets `meta["fileName"]`;
* `addTable("history", historySpec, force=False)`;
* `logMessage("file created")` at `t1`, then
  `logVersion(str(version))` at `t2` (two separate `int(time.time())`
  reads).

Note the source never assigns `self.version` here.  An exception in a
sub-call escapes with the mutations already made, as in Python. -/
def createNewFile (confirm : String → String → Bool) (validSpec : String → Bool)
    (st : BaseFile) (w : World) (fileName version : String) (force : Bool)
    (t1 t2 : Nat) : Res :=
  let checked : Option (World × Bool) :=
    -- `none` = raise AlreadyOpen; `some (w, true)` = cancelled return;
    -- `some (w, false)` = proceed with world w
    if force then some (w, false)
    else if st.connection.isSome then none
    else
      match fsLookup w.fs fileName with
      | none => some (w, false)
      | some _ =>
        let pr := promptOnOverwrite confirm w fileName "File"
        if pr.1 then some ({ pr.2 with fs := fsRemove pr.2.fs fileName }, false)
        else some (pr.2, true)
  match checked with
  | none => ⟨st, w, some .fileAlreadyOpen⟩
  | some (w, cancelled) =>
    if cancelled then ⟨st, w, none⟩
    else
      let db := (fsLookup w.fs fileName).getD []
      let w := { w with fs := fsSet w.fs fileName db }
      let st := { st with connection := some ⟨fileName, db⟩,
                          metaFileName := some fileName }
      let r1 := addTable confirm validSpec st w "history" historySpec false
      match r1.err with
      | some e => ⟨r1.st, r1.w, some e⟩
      | none =>
        let r2 := logMessage r1.st r1.w "file created" t1
        match r2.err with
        | some e => ⟨r2.st, r2.w, some e⟩
        | none => logVersion r2.st r2.w version t2

/-- Embeds `BaseFile.dropTable(tableName, force)`: the body is `pass` — no
check, no effect, normal return. -/
def dropTable (st : BaseFile) (w : World) (tableName : String) (force : Bool) : Res :=
  ⟨st, w, none⟩

/-! ### Helper lemmas and shared concrete objects -/

/-- A world with an empty filesystem and an empty prompt trace. -/
def emptyWorld : World := ⟨[], []⟩

/-- The reserved history table holding the given rows. -/
def histTable (rs : List Row) : Table := ⟨"history", historySpec, rs⟩

/-- A `BaseFile` opened on file `"f"` with the given contents. -/
def openedOn (db : DB) : BaseFile := ⟨some "f", none, some ⟨"f", db⟩⟩

theorem fsLookup_fsSet (fs : FS) (fileName : String) (db : DB) :
    fsLookup (fsSet fs fileName db) fileName = some db := by
  induction fs with
  | nil => simp [fsSet, fsLookup]
  | cons p rest ih =>
    by_cases h : p.1 = fileName
    · simp [fsSet, h, fsLookup]
    · simp [fsSet, h, fsLookup, List.find?] at ih ⊢
      simpa [h] using ih

theorem findTable_appendRowDB (db : DB) (r : Row) (tableName : String) :
    findTable (appendRowDB db r) tableName =
      (findTable db tableName).map
        (fun t => if t.name = "history" then { t with rows := t.rows ++ [r] } else t) := by
  induction db with
  | nil => rfl
  | cons t rest ih =>
    simp only [findTable, appendRowDB, List.map_cons] at ih ⊢
    by_cases h : t.name = tableName
    · subst h
      by_cases h2 : t.name = "history" <;> simp [List.find?_cons, h2, ih]
    · by_cases h2 : t.name = "history"
      · have h3 : ¬("history" = tableName) := fun hh => h (h2.trans hh)
        simp [List.find?_cons, h2, h3, h, ih]
      · simp [List.find?_cons, h2, h, ih]

theorem tableExists_appendRowDB (db : DB) (r : Row) (tableName : String) :
    tableExists (appendRowDB db r) tableName = tableExists db tableName := by
  simp [tableExists, findTable_appendRowDB]

/-! ### C1 -/

/-- C1: the Store is a two-state machine — `self.connection` is either
`None` (Closed) or a live connection (Open), never both; `openFile` on
an Open store raises `FileAlreadyOpen` and returns object and world
unchanged; `closeFile` on a Closed store raises `FileNotOpen` and
returns object and world unchanged (the cached version and the
connection are untouched by either rejected transition). -/
theorem C1_store_two_state_machine (st : BaseFile) (w : World) (fileName : String) :
    (st.connection = none ∨ ∃ c, st.connection = some c) ∧
    ¬(st.connection = none ∧ ∃ c, st.connection = some c) ∧
    (∀ c, st.connection = some c →
      openFile st w fileName = ⟨st, w, some .fileAlreadyOpen⟩) ∧
    (st.connection = none →
      closeFile st w = ⟨st, w, some .fileNotOpen⟩) := by
  refine ⟨?_, ?_, ?_, ?_⟩
  · cases h : st.connection with
    | none => exact Or.inl rfl
    | some c => exact Or.inr ⟨c, rfl⟩
  · rintro ⟨h1, c, h2⟩
    rw [h1] at h2
    cases h2
  · intro c h
    simp [openFile, h]
  · intro h
    simp [closeFile, h]

/-- Witness for C1 at a concrete Open store and a concrete Closed
store. -/
theorem C1_store_two_state_machine_witness :
    openFile ⟨some "f", some "1.0", some ⟨"f", []⟩⟩ emptyWorld "g" =
      ⟨⟨some "f", some "1.0", some ⟨"f", []⟩⟩, emptyWorld, some .fileAlreadyOpen⟩ ∧
    closeFile BaseFile.init emptyWorld =
      ⟨BaseFile.init, emptyWorld, some .fileNotOpen⟩ := by
  constructor
  · exact (C1_store_two_state_machine ⟨some "f", some "1.0", some ⟨"f", []⟩⟩
      emptyWorld "g").2.2.1 ⟨"f", []⟩ rfl
  · exact (C1_store_two_state_machine BaseFile.init emptyWorld "g").2.2.2 rfl

/-! ### C2 -/

/-- C2: on a Closed store and a fresh path (no file there), a
successful `createNewFile(path, v, force=false)` — the engine accepting
the history schema — returns without error, and `getVersion` on the
resulting store returns `v`: creation writes the history table, a
`file created` message entry, then a version entry with payload `v`,
and version resolution returns that payload. -/
theorem C2_create_then_getVersion
    (confirm : String → String → Bool) (validSpec : String → Bool)
    (st : BaseFile) (w : World) (path v : String) (t1 t2 : Nat)
    (hconn : st.connection = none)
    (hfresh : fsLookup w.fs path = none)
    (hspec : validSpec historySpec = true) :
    (createNewFile confirm validSpec st w path v false t1 t2).err = none ∧
    getVersion (createNewFile confirm validSpec st w path v false t1 t2).st =
      .ok v := by
  have hspec' : validSpec "time INT, type TEXT, event TEXT" = true := hspec
  simp [createNewFile, hconn, hfresh, addTable, tableExists, findTable, hspec',
    logMessage, logVersion, addHistory, appendRowDB, getVersion,
    sortByTimeDesc, insertDesc, historySpec]

/-- Witness for C2: creating `"f"` with version `"1.0"` on an empty
filesystem and resolving the version back. -/
theorem C2_create_then_getVersion_witness :
    (createNewFile (fun _ _ => true) (fun _ => true) BaseFile.init emptyWorld
        "f" "1.0" false 5 6).err = none ∧
    getVersion (createNewFile (fun _ _ => true) (fun _ => true) BaseFile.init
        emptyWorld "f" "1.0" false 5 6).st = .ok "1.0" :=
  C2_create_then_getVersion (fun _ _ => true) (fun _ => true) BaseFile.init
    emptyWorld "f" "1.0" 5 6 rfl rfl rfl

/-! ### C3 -/

/-- The first row (in insertion order) whose `time` is maximal among
the list: a strictly later timestamp displaces the current pick, an
equal one does not. -/
def firstMaxRow : List Row → Option Row
  | [] => none
  | r :: rs =>
    match firstMaxRow rs with
    | none => some r
    | some m => if r.time < m.time then some m else some r

theorem insertDesc_head (r : Row) (l : List Row) :
    (insertDesc r l).head? =
      some (match l.head? with
            | none => r
            | some x => if x.time ≤ r.time then r else x) := by
  cases l with
  | nil => rfl
  | cons x xs =>
    by_cases h : x.time ≤ r.time <;> simp [insertDesc, h]


theorem sortByTimeDesc_head (l : List Row) :
    (sortByTimeDesc l).head? = firstMaxRow l := by
  induction l with
  | nil => rfl
  | cons r rs ih =>
    show (insertDesc r (sortByTimeDesc rs)).head? = _
    rw [insertDesc_head, ih, firstMaxRow]
    cases hm : firstMaxRow rs with
    | none => rfl
    | some m =>
      show some (if m.time ≤ r.time then r else m) =
        if r.time < m.time then some m else some r
      by_cases h : m.time ≤ r.time
      · rw [if_pos h, if_neg (Nat.not_lt_of_le h)]
      · rw [if_neg h, if_pos (Nat.lt_of_not_le h)]

theorem firstMaxRow_eq_none (l : List Row) (h : firstMaxRow l = none) : l = [] := by
  cases l with
  | nil => rfl
  | cons x xs =>
    rw [firstMaxRow] at h
    cases hx : firstMaxRow xs with
    | none =>
      rw [hx] at h
      exact absurd (show some x = none from h) (by simp)
    | some m =>
      rw [hx] at h
      have h2 : (if x.time < m.time then some m else some x) = none := h
      revert h2
      by_cases hlt : x.time < m.time <;> simp [hlt]

theorem firstMaxRow_isMax (l : List Row) (m : Row) (hm : firstMaxRow l = some m) :
    ∀ r ∈ l, r.time ≤ m.time := by
  induction l generalizing m with
  | nil => cases hm
  | cons x xs ih =>
    intro r hr
    rw [firstMaxRow] at hm
    cases hx : firstMaxRow xs with
    | none =>
      rw [hx] at hm
      obtain rfl : x = m := Option.some.inj hm
      have hxs : xs = [] := firstMaxRow_eq_none xs hx
      subst hxs
      cases hr with
      | head => exact Nat.le_refl _
      | tail _ h => cases h
    | some m' =>
      rw [hx] at hm
      have hm2 : (if x.time < m'.time then some m' else some x) = some m := hm
      by_cases hlt : x.time < m'.time
      · rw [if_pos hlt] at hm2
        obtain rfl : m' = m := Option.some.inj hm2
        cases hr with
        | head => exact Nat.le_of_lt hlt
        | tail _ h => exact ih _ hx r h
      · rw [if_neg hlt] at hm2
        obtain rfl : x = m := Option.some.inj hm2
        cases hr with
        | head => exact Nat.le_refl _
        | tail _ h => exact Nat.le_trans (ih m' hx r h) (Nat.le_of_not_lt hlt)

theorem firstMaxRow_first (l : List Row) (m : Row) (hm : firstMaxRow l = some m) :
    ∃ pre post, l = pre ++ m :: post ∧ ∀ r ∈ pre, r.time < m.time := by
  induction l generalizing m with
  | nil => cases hm
  | cons x xs ih =>
    rw [firstMaxRow] at hm
    cases hx : firstMaxRow xs with
    | none =>
      rw [hx] at hm
      obtain rfl : x = m := Option.some.inj hm
      exact ⟨[], xs, rfl, by simp⟩
    | some m' =>
      rw [hx] at hm
      have hm2 : (if x.time < m'.time then some m' else some x) = some m := hm
      by_cases hlt : x.time < m'.time
      · rw [if_pos hlt] at hm2
        obtain rfl : m' = m := Option.some.inj hm2
        obtain ⟨pre, post, heq, hpre⟩ := ih _ hx
        refine ⟨x :: pre, post, by rw [heq]; rfl, ?_⟩
        intro r hr
        cases hr with
        | head => exact hlt
        | tail _ h => exact hpre r h
      · rw [if_neg hlt] at hm2
        obtain rfl : x = m := Option.some.inj hm2
        exact ⟨[], xs, rfl, by simp⟩

/-- C3 (counterexample): two `version` entries with identical timestamp
5, payloads `"1.0"` then `"2.0"` in insertion order.  The claim says
resolution returns the later-inserted `"2.0"`; `getVersion` (embedding
`ORDER BY time DESC`, a stable sort over the scan order, with no
insertion-order tie-break of its own) returns `"1.0"`. -/
theorem C3_tie_counterexample :
    getVersion (openedOn [histTable
        [⟨5, "version", "1.0"⟩, ⟨5, "version", "2.0"⟩]]) = .ok "1.0" ∧
    ("1.0" : String) ≠ "2.0" :=
  ⟨rfl, by decide⟩

/-- C3 (amended): version resolution orders version entries by
timestamp descending, and `getVersion` returns the payload of a
version entry of maximal timestamp; but when two version entries carry
identical timestamps it returns the EARLIER-inserted one (the query
orders by `time` only; under the stable scan-order model the first
listed row among the tied maxima wins), not the later-inserted one. -/
theorem C3_version_resolution_amended (st : BaseFile) (conn : Connection)
    (t : Table) (m : Row)
    (hc : st.connection = some conn)
    (ht : findTable conn.pending "history" = some t)
    (hm : firstMaxRow (t.rows.filter (fun r => r.ty == "version")) = some m) :
    getVersion st = .ok m.event ∧
    (∀ r ∈ t.rows.filter (fun r => r.ty == "version"), r.time ≤ m.time) ∧
    (∃ pre post, t.rows.filter (fun r => r.ty == "version") = pre ++ m :: post ∧
      ∀ r ∈ pre, r.time < m.time) := by
  refine ⟨?_, firstMaxRow_isMax _ _ hm, firstMaxRow_first _ _ hm⟩
  simp only [getVersion, hc, ht]
  have hhead := sortByTimeDesc_head (t.rows.filter (fun r => r.ty == "version"))
  rw [hm] at hhead
  cases hs : sortByTimeDesc (t.rows.filter (fun r => r.ty == "version")) with
  | nil => rw [hs] at hhead; cases hhead
  | cons x xs =>
    rw [hs] at hhead
    have h2 : some x = some m := hhead
    obtain rfl : x = m := Option.some.inj h2
    rfl

/-- Witness for C3 (amended) on the concrete tied history: the first
row of maximal timestamp is the earlier-inserted `"1.0"` entry. -/
theorem C3_version_resolution_amended_witness :
    getVersion (openedOn [histTable
        [⟨5, "version", "1.0"⟩, ⟨5, "version", "2.0"⟩]]) = .ok "1.0" :=
  (C3_version_resolution_amended
    (openedOn [histTable [⟨5, "version", "1.0"⟩, ⟨5, "version", "2.0"⟩]])
    ⟨"f", [histTable [⟨5, "version", "1.0"⟩, ⟨5, "version", "2.0"⟩]]⟩
    (histTable [⟨5, "version", "1.0"⟩, ⟨5, "version", "2.0"⟩])
    ⟨5, "version", "1.0"⟩ rfl rfl rfl).1

/-! ### C4 -/

/-- C4 (code-bug evidence): at the failing input — an Open store on
file `"f"` holding table `people` with one row, the engine rejecting
the replacement column spec — `addTable("people", ..., force=true)`
raises `FileError`, but the previously existing `people` table (rows
included) is NOT left intact: the `DROP` had already been implicitly
committed (Python 2 sqlite3 autocommits DDL), the `except`-arm
`rollback()` restores nothing, and `people` is gone from both the
connection's pending contents and the committed file.  The spec's and
the claim's rollback guarantee — which the code's own `rollback()` call
plainly intends — does not hold. -/
theorem C4_addTable_drop_not_rolled_back :
    addTable (fun _ _ => true) (fun _ => false)
      (openedOn [histTable [], ⟨"people", "Id INT", [⟨0, "a", "b"⟩]⟩])
      ⟨[("f", [histTable [], ⟨"people", "Id INT", [⟨0, "a", "b"⟩]⟩])], []⟩
      "people" "no good spec" true =
    ⟨openedOn [histTable []], ⟨[("f", [histTable []])], []⟩,
     some .fileError⟩ ∧
    findTable [histTable []] "people" = none :=
  ⟨rfl, rfl⟩

/-! ### C5 -/

/-- C5: on an Open store where `tableName` already exists, `addTable`
with `force = false` and a denying Confirmation Gate returns normally
(no error) as a no-op: the object state, including the whole pending
contents (schema and row data of the existing table), and the
filesystem are returned exactly unchanged; only the gate-invocation
trace records the consultation. -/
theorem C5_addTable_deny_noop
    (confirm : String → String → Bool) (validSpec : String → Bool)
    (st : BaseFile) (w : World) (conn : Connection) (tableName columns : String)
    (hc : st.connection = some conn)
    (hex : tableExists conn.pending tableName = true)
    (hdeny : confirm tableName "table" = false) :
    addTable confirm validSpec st w tableName columns false =
      ⟨st, { w with prompts := w.prompts ++ [(tableName, "table")] }, none⟩ := by
  simp [addTable, hc, hex, promptOnOverwrite, hdeny]

/-- Witness for C5: `people` exists with one row, the gate denies, the
call is a no-op leaving store and filesystem unchanged. -/
theorem C5_addTable_deny_noop_witness :
    addTable (fun _ _ => false) (fun _ => true)
      (openedOn [histTable [], ⟨"people", "Id INT", [⟨0, "a", "b"⟩]⟩])
      ⟨[("f", [histTable [], ⟨"people", "Id INT", [⟨0, "a", "b"⟩]⟩])], []⟩
      "people" "Id INT, X TEXT" false =
    ⟨openedOn [histTable [], ⟨"people", "Id INT", [⟨0, "a", "b"⟩]⟩],
     ⟨[("f", [histTable [], ⟨"people", "Id INT", [⟨0, "a", "b"⟩]⟩])],
      [("people", "table")]⟩, none⟩ :=
  C5_addTable_deny_noop (fun _ _ => false) (fun _ => true)
    (openedOn [histTable [], ⟨"people", "Id INT", [⟨0, "a", "b"⟩]⟩])
    ⟨[("f", [histTable [], ⟨"people", "Id INT", [⟨0, "a", "b"⟩]⟩])], []⟩
    ⟨"f", [histTable [], ⟨"people", "Id INT", [⟨0, "a", "b"⟩]⟩]⟩
    "people" "Id INT, X TEXT" rfl rfl rfl

/-! ### C6 -/

/-- C6 (counterexample): a store already open on `"old"` and
`createNewFile("new", "2.0", force=true)`.  The claim says every value
of `force` fails with `FileAlreadyOpen` and has no side effects; with
`force = true` the already-open sanity check is skipped, so the call
returns without error and the object state changes (the connection is
replaced, the old handle silently dropped). -/
theorem C6_force_create_while_open_counterexample :
    (createNewFile (fun _ _ => false) (fun _ => true)
        ⟨some "old", some "1.0", some ⟨"old", [histTable [⟨1, "version", "1.0"⟩]]⟩⟩
        ⟨[("old", [histTable [⟨1, "version", "1.0"⟩]])], []⟩
        "new" "2.0" true 10 11).err = none ∧
    (createNewFile (fun _ _ => false) (fun _ => true)
        ⟨some "old", some "1.0", some ⟨"old", [histTable [⟨1, "version", "1.0"⟩]]⟩⟩
        ⟨[("old", [histTable [⟨1, "version", "1.0"⟩]])], []⟩
        "new" "2.0" true 10 11).st ≠
      ⟨some "old", some "1.0", some ⟨"old", [histTable [⟨1, "version", "1.0"⟩]]⟩⟩ :=
  ⟨rfl, by decide⟩

/-- C6 (amended): with `force = false`, `createNewFile` on a store that
already holds an open connection fails with `FileAlreadyOpen` and has
no side effects — object state and world are returned unchanged, no
file deleted or created, no gate consulted, no history written.  With
`force = true` the check is skipped and the call proceeds (see the
counterexample). -/
theorem C6_create_already_open_amended
    (confirm : String → String → Bool) (validSpec : String → Bool)
    (st : BaseFile) (w : World) (fileName v : String) (t1 t2 : Nat)
    (conn : Connection)
    (hc : st.connection = some conn) :
    createNewFile confirm validSpec st w fileName v false t1 t2 =
      ⟨st, w, some .fileAlreadyOpen⟩ := by
  simp [createNewFile, hc]

/-- Witness for C6 (amended) at a concrete open store. -/
theorem C6_create_already_open_amended_witness :
    createNewFile (fun _ _ => true) (fun _ => true)
        (openedOn [histTable []]) emptyWorld "new" "2.0" false 3 4 =
      ⟨openedOn [histTable []], emptyWorld, some .fileAlreadyOpen⟩ :=
  C6_create_already_open_amended (fun _ _ => true) (fun _ => true)
    (openedOn [histTable []]) emptyWorld "new" "2.0" 3 4 ⟨"f", [histTable []]⟩ rfl

/-! ### C7 -/

/-- C7 (counterexample): an Open store whose history holds only a
`message` entry.  The claim says `getVersion` fails with the
`NoVersionRecorded` error; the code's `rows[0]` on the empty result
list raises an uncaught `IndexError` instead (the `except` clause
catches only `lite.Error`), which is not the `NoVersionRecorded`
error. -/
theorem C7_no_version_counterexample :
    getVersion (openedOn [histTable [⟨5, "message", "file created"⟩]]) =
      .error .indexError ∧
    (Except.error .indexError : Except DPError String) ≠
      .error .noVersionRecorded :=
  ⟨rfl, fun h => absurd (Except.error.inj h) (by decide)⟩

/-- C7 (amended): on every Open store whose history table contains no
entry of kind `version`, `getVersion` fails — it does not return the
unset sentinel (the trailing `return -1` is unreachable) — but the
failure is Python's built-in `IndexError` escaping from `rows[0]`, not
a `NoVersionRecorded` error (no such error exists in the code). -/
theorem C7_no_version_amended (st : BaseFile) (conn : Connection) (t : Table)
    (hc : st.connection = some conn)
    (ht : findTable conn.pending "history" = some t)
    (hnov : t.rows.filter (fun r => r.ty == "version") = []) :
    getVersion st = .error .indexError := by
  simp only [getVersion, hc, ht, hnov]
  rfl

/-- Witness for C7 (amended) at the concrete store with a message-only
history. -/
theorem C7_no_version_amended_witness :
    getVersion (openedOn [histTable [⟨5, "message", "file created"⟩]]) =
      .error .indexError :=
  C7_no_version_amended
    (openedOn [histTable [⟨5, "message", "file created"⟩]])
    ⟨"f", [histTable [⟨5, "message", "file created"⟩]]⟩
    (histTable [⟨5, "message", "file created"⟩]) rfl rfl rfl

/-! ### C8 -/

/-- C8 (counterexample): `dropTable` on a never-opened store (no
connection).  The claim says it fails with the `FileNotOpen` error like
`addTable`; the code's body is `pass`, so it returns normally with no
error at all. -/
theorem C8_dropTable_closed_counterexample :
    dropTable BaseFile.init emptyWorld "people" false =
      ⟨BaseFile.init, emptyWorld, none⟩ ∧
    (none : Option DPError) ≠ some .fileNotOpen :=
  ⟨rfl, by decide⟩

/-- C8 (amended): `dropTable` does not share `addTable`'s
precondition — its body is `pass`, an unimplemented no-op: on every
store (open or closed) and every `force` it returns normally with no
error and no effect on the object or the world. -/
theorem C8_dropTable_noop_amended (st : BaseFile) (w : World)
    (tableName : String) (force : Bool) :
    dropTable st w tableName force = ⟨st, w, none⟩ := rfl

/-! ### C9 -/

theorem addTable_version (confirm : String → String → Bool)
    (validSpec : String → Bool) (st : BaseFile) (w : World)
    (tableName columns : String) (force : Bool) :
    (addTable confirm validSpec st w tableName columns force).st.version =
      st.version := by
  cases hc : st.connection with
  | none => simp [addTable, hc]
  | some conn =>
    simp only [addTable, hc]
    by_cases hf : force <;> by_cases hv : validSpec columns <;>
      by_cases he : tableExists conn.pending tableName <;>
        by_cases hok : confirm tableName "table" <;>
          simp [hf, hv, he, hok, promptOnOverwrite]

theorem addHistory_version (st : BaseFile) (w : World) (ty event : String)
    (now : Nat) :
    (addHistory st w ty event now).st.version = st.version := by
  cases hc : st.connection with
  | none => simp [addHistory, hc]
  | some conn =>
    simp only [addHistory, hc]
    cases ht : findTable conn.pending "history" <;> simp

theorem createNewFile_version (confirm : String → String → Bool)
    (validSpec : String → Bool) (st : BaseFile) (w : World)
    (fileName v : String) (force : Bool) (t1 t2 : Nat) :
    (createNewFile confirm validSpec st w fileName v force t1 t2).st.version =
      st.version := by
  simp only [createNewFile]
  split
  · rfl
  · split
    · rfl
    · split
      · simp [addTable_version]
      · split
        · simp [logMessage, addHistory_version, addTable_version]
        · simp [logVersion, logMessage, addHistory_version, addTable_version]

/-- C9 (counterexample): a fresh store creates file `"f"` with version
`"1.0"`; the call succeeds and the store is Open, yet the cached
version field still holds the unset sentinel (`-1`, modelled `none`)
while the History Log resolves to `"1.0"` — contradicting both "after
every successful createNewFile the cached version equals the resolved
version" and "it only holds the sentinel when no store is open". -/
theorem C9_create_version_not_cached_counterexample :
    (createNewFile (fun _ _ => true) (fun _ => true) BaseFile.init emptyWorld
        "f" "1.0" false 5 6).err = none ∧
    (createNewFile (fun _ _ => true) (fun _ => true) BaseFile.init emptyWorld
        "f" "1.0" false 5 6).st.connection.isSome = true ∧
    (createNewFile (fun _ _ => true) (fun _ => true) BaseFile.init emptyWorld
        "f" "1.0" false 5 6).st.version = none ∧
    getVersion (createNewFile (fun _ _ => true) (fun _ => true) BaseFile.init
        emptyWorld "f" "1.0" false 5 6).st = .ok "1.0" :=
  ⟨rfl, rfl, rfl, rfl⟩

/-- C9 (amended): after a successful `openFile` the cached version
field equals the version resolved from the History Log; but
`createNewFile` never assigns the cached version — on every call
(success or not, any `force`) it is left at its prior value, so after
creating on a fresh store it still holds the unset sentinel even though
the store is Open. -/
theorem C9_version_cache_amended :
    (∀ (st : BaseFile) (w : World) (fileName : String) (db : DB) (v : String),
      st.connection = none →
      fsLookup w.fs fileName = some db →
      getVersion ⟨some fileName, st.version, some ⟨fileName, db⟩⟩ = .ok v →
      openFile st w fileName =
        ⟨⟨some fileName, some v, some ⟨fileName, db⟩⟩, w, none⟩) ∧
    (∀ (confirm : String → String → Bool) (validSpec : String → Bool)
       (st : BaseFile) (w : World) (f v : String) (force : Bool) (t1 t2 : Nat),
      (createNewFile confirm validSpec st w f v force t1 t2).st.version =
        st.version) := by
  constructor
  · intro st w fileName db v hc hdb hres
    simp [openFile, hc, hdb, hres]
  · intro confirm validSpec st w f v force t1 t2
    exact createNewFile_version confirm validSpec st w f v force t1 t2

/-- Witness for C9 (amended): opening a file whose history resolves to
`"1.0"` caches `"1.0"`, and a concrete `createNewFile` leaves the
sentinel in place. -/
theorem C9_version_cache_amended_witness :
    openFile BaseFile.init ⟨[("f", [histTable [⟨1, "version", "1.0"⟩]])], []⟩ "f" =
      ⟨⟨some "f", some "1.0", some ⟨"f", [histTable [⟨1, "version", "1.0"⟩]]⟩⟩,
       ⟨[("f", [histTable [⟨1, "version", "1.0"⟩]])], []⟩, none⟩ ∧
    (createNewFile (fun _ _ => true) (fun _ => true) BaseFile.init emptyWorld
        "g" "3.0" false 5 6).st.version = BaseFile.init.version :=
  ⟨C9_version_cache_amended.1 BaseFile.init
      ⟨[("f", [histTable [⟨1, "version", "1.0"⟩]])], []⟩ "f"
      [histTable [⟨1, "version", "1.0"⟩]] "1.0" rfl rfl rfl,
   C9_version_cache_amended.2 (fun _ _ => true) (fun _ => true) BaseFile.init
      emptyWorld "g" "3.0" false 5 6⟩

/-! ### C10 -/

/-- C10 (counterexample): `createNewFile("f", "2.0", force=true)` when
file `"f"` already exists and already contains a `history` table.  The
claim says the Confirmation Gate is never invoked on this path; the
nested `addTable("history", ..., force=False)` finds the existing
`history` table and consults the gate — the invocation trace is
non-empty. -/
theorem C10_gate_invoked_counterexample :
    (createNewFile (fun _ _ => false) (fun _ => true) BaseFile.init
        ⟨[("f", [histTable [⟨1, "version", "1.0"⟩]])], []⟩
        "f" "2.0" true 7 8).w.prompts = [("history", "table")] ∧
    ([("history", "table")] : List (String × String)) ≠ [] :=
  ⟨rfl, by decide⟩

/-- C10 (amended): `createNewFile` with `force = true` on a path whose
file exists skips the already-open check and the file-overwrite gate,
and never deletes the file — but it does not connect to the existing
contents "as-is": it runs `addTable("history", force=False)`, which
consults the Confirmation Gate when the file already has a `history`
table (here: denying leaves the table), and then appends a
`file created` message entry and a version entry, so the call returns
no error, the gate trace grows by `("history", "table")`, and the
file's contents gain the two new history rows. -/
theorem C10_force_create_existing_amended
    (confirm : String → String → Bool) (validSpec : String → Bool)
    (st : BaseFile) (w : World) (f v : String) (t1 t2 : Nat) (db : DB)
    (hdb : fsLookup w.fs f = some db)
    (hex : tableExists db "history" = true)
    (hdeny : confirm "history" "table" = false) :
    (createNewFile confirm validSpec st w f v true t1 t2).err = none ∧
    (createNewFile confirm validSpec st w f v true t1 t2).w.prompts =
      w.prompts ++ [("history", "table")] ∧
    (createNewFile confirm validSpec st w f v true t1 t2).st.connection =
      some ⟨f, appendRowDB (appendRowDB db ⟨t1, "message", "file created"⟩)
                ⟨t2, "version", v⟩⟩ ∧
    fsLookup (createNewFile confirm validSpec st w f v true t1 t2).w.fs f =
      some (appendRowDB (appendRowDB db ⟨t1, "message", "file created"⟩)
              ⟨t2, "version", v⟩) := by
  have hex' : (findTable db "history").isSome = true := hex
  obtain ⟨t, ht⟩ := Option.isSome_iff_exists.mp hex'
  simp [createNewFile, hdb, addTable, tableExists, ht, promptOnOverwrite, hdeny,
    logMessage, logVersion, addHistory, findTable_appendRowDB, fsLookup_fsSet]

/-- Witness for C10 (amended) on a concrete existing DP file with a
denying gate. -/
theorem C10_force_create_existing_amended_witness :
    (createNewFile (fun _ _ => false) (fun _ => true) BaseFile.init
        ⟨[("f", [histTable [⟨1, "version", "1.0"⟩]])], []⟩
        "f" "2.0" true 7 8).err = none ∧
    (createNewFile (fun _ _ => false) (fun _ => true) BaseFile.init
        ⟨[("f", [histTable [⟨1, "version", "1.0"⟩]])], []⟩
        "f" "2.0" true 7 8).w.prompts = [] ++ [("history", "table")] ∧
    (createNewFile (fun _ _ => false) (fun _ => true) BaseFile.init
        ⟨[("f", [histTable [⟨1, "version", "1.0"⟩]])], []⟩
        "f" "2.0" true 7 8).st.connection =
      some ⟨"f", appendRowDB (appendRowDB [histTable [⟨1, "version", "1.0"⟩]]
                ⟨7, "message", "file created"⟩) ⟨8, "version", "2.0"⟩⟩ ∧
    fsLookup (createNewFile (fun _ _ => false) (fun _ => true) BaseFile.init
        ⟨[("f", [histTable [⟨1, "version", "1.0"⟩]])], []⟩
        "f" "2.0" true 7 8).w.fs "f" =
      some (appendRowDB (appendRowDB [histTable [⟨1, "version", "1.0"⟩]]
              ⟨7, "message", "file created"⟩) ⟨8, "version", "2.0"⟩) :=
  C10_force_create_existing_amended (fun _ _ => false) (fun _ => true)
    BaseFile.init ⟨[("f", [histTable [⟨1, "version", "1.0"⟩]])], []⟩
    "f" "2.0" 7 8 [histTable [⟨1, "version", "1.0"⟩]] rfl rfl rfl
